import Mathlib

/-!
Verification of the response-synthesis core and the document/query adapters of
the `llama_index` repository.

The pandas query path (`gpt_index/indices/struct_store/pandas_query.py`) and
the Mongo reader (`gpt_index/readers/mongo.py`) are embedded directly from
their sources.  The `PromptHelper`, the response-builder strategies, and the
Langchain output parser are exercised by the test suite but their modules are
not among the sources, so their definitions below are modelled from the spec
(sections 4.1, 4.2 and 8) and are anchored on the concrete behaviour the test
files pin down; each such definition says so in its doc comment.
-/

set_option autoImplicit false

namespace LlamaIndex

/-- Strip `sep` from the front of `cs`, returning the remainder when `sep` is
a leading segment of `cs`. -/
def stripLead : List Char → List Char → Option (List Char)
  | [], cs => some cs
  | _ :: _, [] => none
  | s :: ss, c :: cs => if s = c then stripLead ss cs else none

/-- Worker for separator splitting.  The fuel argument bounds the number of
characters consumed, which makes the recursion structural; callers pass one
more than the length of the input, which is always enough because every step
consumes at least one character when the separator is nonempty. -/
def splitSepAux (sep : List Char) : Nat → List Char → List Char → List (List Char)
  | _, cur, [] => [cur.reverse]
  | 0, cur, rest => [cur.reverse ++ rest]
  | fuel + 1, cur, c :: cs =>
    match stripLead sep (c :: cs) with
    | some rest => cur.reverse :: splitSepAux sep fuel [] rest
    | none => splitSepAux sep fuel (c :: cur) cs

/-- Split a string on an exact separator, in the style of Python
`str.split(sep)`: adjacent separators produce empty pieces and the empty
string yields one empty piece.  An empty separator returns the string whole
(callers never pass one). -/
def splitSep (sep s : String) : List String :=
  match sep.data with
  | [] => [s]
  | c :: cs => (splitSepAux (c :: cs) (s.data.length + 1) [] s.data).map String.mk

/-- Join a list of strings with a separator, in the style of Python
`sep.join(xs)`. -/
def joinSep (sep : String) : List String → String
  | [] => ""
  | [x] => x
  | x :: y :: rest => x ++ sep ++ joinSep sep (y :: rest)

/-- Mock tokenizer from `tests/indices/response/test_response_builder.py`:
split on single spaces, with the empty string mapping to no tokens. -/
def mockTokenizer (text : String) : List String :=
  if text = "" then [] else splitSep " " text

/-- Number of tokens of a text under a given tokenizer. -/
def tokenCount (tokenizer : String → List String) (s : String) : Nat :=
  (tokenizer s).length

/-- Modelled from the spec: the configuration of `PromptHelper`
(`gpt_index/indices/prompt_helper.py` is not among the sources; spec section
4.1 and the assertions of `tests/indices/response/test_response_builder.py`
pin its behaviour). -/
structure PromptHelper where
  max_input_size : Nat
  num_output : Nat
  chunk_size_limit : Option Nat
  tokenizer : String → List String
  separator : String

/-- Modelled from the spec: `PromptHelper.get_chunk_size_given_prompt` — the
tokens left once the rendered prompt and the reserved output are subtracted
from the window are divided among `num_chunks`, minus `padding` per chunk,
capped by `chunk_size_limit`; a non-positive budget is an error, never a
clamped value.  Natural-number subtraction agrees with the Python integer
arithmetic here: whenever the Python value would be non-positive the natural
result is `0` and the error branch is taken. -/
def PromptHelper.get_chunk_size_given_prompt
    (ph : PromptHelper) (prompt_text : String) (num_chunks padding : Nat) :
    Except String Nat :=
  let numPromptTokens := tokenCount ph.tokenizer prompt_text
  let available := ph.max_input_size - numPromptTokens - ph.num_output
  let raw := available / num_chunks - padding
  let result :=
    match ph.chunk_size_limit with
    | some l => min raw l
    | none => raw
  if result = 0 then
    .error "Calculated chunk size is non-positive."
  else
    .ok result

example :
    PromptHelper.get_chunk_size_given_prompt
      ⟨11, 0, some 4, mockTokenizer, "\n\n"⟩ "" 1 1 = .ok 4 := by rfl

example :
    PromptHelper.get_chunk_size_given_prompt
      ⟨11, 0, none, mockTokenizer, "\n\n"⟩ "" 1 1 = .ok 10 := by rfl

example :
    PromptHelper.get_chunk_size_given_prompt
      ⟨11, 0, none, mockTokenizer, "\n\n"⟩ "What is?" 1 1 = .ok 8 := by rfl

/-- One call to the predictor boundary, recording which template was
dispatched and with which arguments. -/
inductive PredictorCall where
  | qa (context_str query_str : String)
  | refine (query_str existing_answer context_msg : String)
deriving DecidableEq

/-- True exactly on refine-template calls. -/
def PredictorCall.is_refine_call : PredictorCall → Bool
  | .refine .. => true
  | .qa .. => false

/-- The predictor boundary, one function per template — the shape of
`LLMPredictor.predict` specialised to the QA and refine prompts. -/
structure Predictor where
  qa (context_str query_str : String) : String
  refine (query_str existing_answer context_msg : String) : String

/-- Stub predictor of spec scenario A and `tests/mock_utils/mock_predict.py`:
the QA template echoes `query_str:context_str` and the refine template echoes
`existing_answer:context_msg`. -/
def mockPredictor : Predictor where
  qa := fun context_str query_str => query_str ++ ":" ++ context_str
  refine := fun _ existing_answer context_msg => existing_answer ++ ":" ++ context_msg

/-- Modelled from the spec: the refine half of the Default strategy — every
remaining chunk updates the existing answer through the refine template, and
the answer after the last chunk is the result. -/
def refineSteps (pred : Predictor) (query_str existing_answer : String) :
    List String → String × List PredictorCall
  | [] => (existing_answer, [])
  | chunk :: rest =>
    let ans := pred.refine query_str existing_answer chunk
    let next := refineSteps pred query_str ans rest
    (next.1, .refine query_str existing_answer chunk :: next.2)

/-- Modelled from the spec: `Refine.get_response`, the Default strategy
(`gpt_index/indices/response/response_builder.py` is not among the sources;
spec section 4.2).  The first chunk goes through the QA template, every later
chunk refines the prior answer, and an empty chunk list makes a single QA
call with empty context. -/
def default_get_response (pred : Predictor) (query_str : String) :
    List String → String × List PredictorCall
  | [] => (pred.qa "" query_str, [.qa "" query_str])
  | chunk :: rest =>
    let ans := pred.qa chunk query_str
    let next := refineSteps pred query_str ans rest
    (next.1, .qa chunk query_str :: next.2)

/-- Greedy packing worker: `cur` is the reversed current group and `curCount`
its token count; a unit that would push the group past `limit` flushes the
group and starts a new one. -/
def packUnitsAux (tokenizer : String → List String) (limit : Nat) :
    List String → Nat → List String → List (List String)
  | cur, _, [] => if cur.isEmpty then [] else [cur.reverse]
  | cur, curCount, u :: rest =>
    let t := tokenCount tokenizer u
    if cur.isEmpty then
      packUnitsAux tokenizer limit [u] t rest
    else if curCount + t ≤ limit then
      packUnitsAux tokenizer limit (u :: cur) (curCount + t) rest
    else
      cur.reverse :: packUnitsAux tokenizer limit [u] t rest

/-- Greedy packing of separator-delimited units into groups whose summed
token counts stay within `limit`. -/
def packUnits (tokenizer : String → List String) (limit : Nat)
    (units : List String) : List (List String) :=
  packUnitsAux tokenizer limit [] 0 units

/-- Modelled from the spec: `PromptHelper.compact_text_chunks` — join the
chunks with the separator, re-split on the separator, and greedily pack the
units into windows of the chunk size computed for one chunk with padding 1.
The `chunk_size_limit` cap is not applied inside Compact: the test asserts
the packed window is 8 while `chunk_size_limit` is 4
(`tests/indices/response/test_response_builder.py`, `test_compact_response`). -/
def PromptHelper.compact_text_chunks (ph : PromptHelper) (prompt_text : String)
    (chunks : List String) : Except String (List String) := do
  let chunkSize ←
    ({ ph with chunk_size_limit := none } :
        PromptHelper).get_chunk_size_given_prompt prompt_text 1 1
  let joined := joinSep ph.separator chunks
  let units := splitSep ph.separator joined
  pure ((packUnits ph.tokenizer chunkSize units).map (joinSep ph.separator))

/-- Modelled from the spec: `CompactAndRefine.get_response`, the Compact
strategy — repack the chunks to the computed window, then run the Default
refine loop over the repacked chunks.  `prompt_text` is the biggest of the
two templates rendered with empty content slots, which is what the chunk-size
computation sees. -/
def compact_get_response (ph : PromptHelper) (pred : Predictor)
    (prompt_text query_str : String) (chunks : List String) :
    Except String (String × List PredictorCall) := do
  let newChunks ← ph.compact_text_chunks prompt_text chunks
  pure (default_get_response pred query_str newChunks)

/-- The `PromptHelper` configuration of `test_compact_response`. -/
def compactPH : PromptHelper := ⟨11, 0, some 4, mockTokenizer, "\n\n"⟩

example :
    compact_get_response compactPH mockPredictor "What is?" "What is?"
      ["This\n\nis\n\na\n\nbar", "This\n\nis\n\na\n\ntest"] =
    .ok ("What is?:This\n\nis\n\na\n\nbar\n\nThis\n\nis\n\na\n\ntest",
      [.qa "This\n\nis\n\na\n\nbar\n\nThis\n\nis\n\na\n\ntest" "What is?"]) := by rfl

/-- Split a list into consecutive groups of `n`, the last group keeping the
remainder; the fuel argument makes the recursion structural, and the list
length is always enough fuel. -/
def groupsOfAux {α : Type} (n : Nat) : Nat → List α → List (List α)
  | _, [] => []
  | 0, l => [l]
  | fuel + 1, l => l.take n :: groupsOfAux n fuel (l.drop n)

/-- Consecutive groups of `n` elements, the last group keeping the remainder. -/
def groupsOf {α : Type} (n : Nat) (l : List α) : List (List α) :=
  groupsOfAux n l.length l

/-- Modelled from the spec: one level of Tree-Summarize — group the chunks
into batches of `num_children` preserving order, join each batch with the
separator, and make one QA call per batch. -/
def summarizeLevel (pred : Predictor) (query_str sep : String)
    (num_children : Nat) (chunks : List String) :
    List String × List PredictorCall :=
  let groups := groupsOf num_children chunks
  (groups.map fun g => pred.qa (joinSep sep g) query_str,
   groups.map fun g => PredictorCall.qa (joinSep sep g) query_str)

/-- Modelled from the spec: the recursion of `TreeSummarize.get_response` —
summarize a level, and if more than one summary remains the summaries become
the next level's chunks.  Fuel bounds the depth; each level strictly shrinks
the list when `num_children ≥ 2`, so the initial chunk count is enough. -/
def tree_summarize_aux (pred : Predictor) (query_str sep : String)
    (num_children : Nat) : Nat → List String → String × List PredictorCall
  | _, [] => (pred.qa "" query_str, [.qa "" query_str])
  | fuel, chunk :: rest =>
    let level := summarizeLevel pred query_str sep num_children (chunk :: rest)
    match level.1, fuel with
    | [s], _ => (s, level.2)
    | summaries, fuel' + 1 =>
      let next := tree_summarize_aux pred query_str sep num_children fuel' summaries
      (next.1, level.2 ++ next.2)
    | summaries, 0 => (joinSep sep summaries, level.2)

/-- Modelled from the spec: `TreeSummarize.get_response` — repeat grouped
summarization until exactly one summary remains; that summary is the answer. -/
def tree_summarize_get_response (pred : Predictor) (query_str sep : String)
    (num_children : Nat) (chunks : List String) : String × List PredictorCall :=
  tree_summarize_aux pred query_str sep num_children chunks.length chunks

example :
    (tree_summarize_get_response mockPredictor "What is?" "\n" 2
      ["a", "b", "c", "d"]).2.length = 3 := by rfl

/-- True when the string contains a literal brace character. -/
def containsBrace (s : String) : Bool :=
  s.data.any fun c => c = '{' || c = '}'

/-- Double every brace of the string: `\x7b` becomes `\x7b\x7b` and `\x7d`
becomes `\x7d\x7d`. -/
def escapeBraces (s : String) : String :=
  String.mk (s.data.flatMap fun c =>
    if c = '{' then ['{', '{'] else if c = '}' then ['}', '}'] else [c])

/-- Modelled from the spec: `LangchainOutputParser.format`
(`gpt_index/output_parsers/langchain.py` is not among the sources; spec
sections 3 and 8, and `tests/output_parsers/test_base.py`).  The query is
emitted verbatim, followed by a blank line and the parser's format
instructions; when the query itself contains a literal brace, the braces of
the format instructions are doubled so that a later template `.format` does
not misread them — the test asserts single braces in the instructions for a
brace-free query and doubled ones for a query holding `\x7bbar\x7d`. -/
def lc_format (format_instructions query_str : String) : String :=
  if containsBrace query_str then
    query_str ++ "\n\n" ++ escapeBraces format_instructions
  else
    query_str ++ "\n\n" ++ format_instructions

/-- Format instructions of the mock output parser in
`tests/output_parsers/test_base.py`. -/
def mockFormatInstructions : String := "\x7b Education, education experience \x7d"

example :
    lc_format mockFormatInstructions "Hello world." =
      "Hello world.\n\n\x7b Education, education experience \x7d" := by rfl

example :
    lc_format mockFormatInstructions "foo \x7bbar\x7d." =
      "foo \x7bbar\x7d.\n\n\x7b\x7b Education, education experience \x7d\x7d" := by
  rfl

/-- `default_output_processor` of
`gpt_index/indices/struct_store/pandas_query.py`: run the LLM output as
Python over the dataframe; a raised exception is caught and turned into a
diagnostic string rather than propagated.  The Python interpreter and the
dataframe are outside the embedding, so execution is abstracted as a function
from the output string and the dataframe to either the printed value or the
raised exception's message (the Python-version guard, which only applies
below CPython 3.9, is not modelled). -/
def default_output_processor {Df : Type} (run_python : String → Df → Except String String)
    (output : String) (df : Df) : String :=
  match run_python output df with
  | .ok s => s
  | .error e => "There was an error running the output as Python code. Error message: " ++ e

/-- The `Response` built by `GPTNLPandasIndexQuery.query`: the answer text and
the `pandas_instruction_str` entry of `extra_info`. -/
structure PandasResponse where
  response : String
  pandas_instruction_str : String
deriving DecidableEq

/-- `GPTNLPandasIndexQuery.query`: predict the pandas instructions, run them
through the output processor, and wrap the processor's string as the answer
of a `Response` — the query returns text, never a raised execution error. -/
def pandas_query {Df : Type} (run_python : String → Df → Except String String)
    (predict : String → String) (df : Df) (query_str : String) : PandasResponse :=
  let pandas_response_str := predict query_str
  let pandas_output := default_output_processor run_python pandas_response_str df
  { response := pandas_output, pandas_instruction_str := pandas_response_str }

/-- A document as built by the readers (`gpt_index/readers/schema/base.py`):
just its text, as far as the Mongo reader is concerned. -/
structure Document where
  text : String
deriving DecidableEq

/-- A fetched Mongo item: a mapping from field names to values. -/
structure MongoDoc where
  fields : List (String × String)
deriving DecidableEq

/-- Look up the `"text"` field of a fetched Mongo item. -/
def MongoDoc.getText? (d : MongoDoc) : Option String :=
  (d.fields.find? fun p => p.1 == "text").map Prod.snd

/-- `SimpleMongoReader` (`gpt_index/readers/mongo.py`): of its constructor
arguments only `max_docs` is retained on the instance; the connection
handle is outside the embedding. -/
structure SimpleMongoReader where
  max_docs : Nat
deriving DecidableEq

/-- `SimpleMongoReader.load_data` over an already-fetched cursor: build one
`Document` per Mongo item in cursor order, raising `ValueError` on the first
item without a `"text"` field; `max_docs` is never consulted. -/
def SimpleMongoReader.load_data (r : SimpleMongoReader) :
    List MongoDoc → Except String (List Document)
  | [] => .ok []
  | item :: rest =>
    match item.getText? with
    | none => .error "`text` field not found in Mongo document."
    | some t => (SimpleMongoReader.load_data r rest).map fun docs => ⟨t⟩ :: docs

example :
    SimpleMongoReader.load_data ⟨1000⟩
      [⟨[("text", "a")]⟩, ⟨[("text", "b")]⟩] = .ok [⟨"a"⟩, ⟨"b"⟩] := by rfl

example :
    SimpleMongoReader.load_data ⟨1000⟩
      [⟨[("text", "a")]⟩, ⟨[("author", "x")]⟩] =
      .error "`text` field not found in Mongo document." := by rfl

/-- C2: in Default (iterative refine) mode, with the stub predictor that
echoes `query_str:context_str` for the QA template and
`existing_answer:context_msg` for the refine template, `get_response` over
the four chunks with query `What is?` answers exactly
`What is?:Hello world.:This is a test.:This is another test.:This is a test v2.`
— the `existing_answer` left after consuming the chunks in order, with the
first chunk dispatched to the QA template and each later chunk to refine. -/
theorem default_scenario_a :
    default_get_response mockPredictor "What is?"
      ["Hello world.", "This is a test.", "This is another test.",
        "This is a test v2."] =
    ("What is?:Hello world.:This is a test.:This is another test.:This is a test v2.",
     [.qa "Hello world." "What is?",
      .refine "What is?" "What is?:Hello world." "This is a test.",
      .refine "What is?" "What is?:Hello world.:This is a test."
        "This is another test.",
      .refine "What is?" "What is?:Hello world.:This is a test.:This is another test."
        "This is a test v2."]) := by
  rfl

/-- C3: in Compact mode with `max_input_size = 11`, `num_output = 0`,
`chunk_size_limit = 4`, separator `"\n\n"`, the space-splitting tokenizer and
the two chunks, `get_response` with query `What is?` concatenates and
re-splits the chunks so the packed window is used, answering exactly
`What is?:This\n\nis\n\na\n\nbar\n\nThis\n\nis\n\na\n\ntest` through a single
QA call — fewer predictor calls than the one-per-chunk of Default. -/
theorem compact_scenario_b :
    compact_get_response compactPH mockPredictor "What is?" "What is?"
      ["This\n\nis\n\na\n\nbar", "This\n\nis\n\na\n\ntest"] =
      .ok ("What is?:This\n\nis\n\na\n\nbar\n\nThis\n\nis\n\na\n\ntest",
        [.qa "This\n\nis\n\na\n\nbar\n\nThis\n\nis\n\na\n\ntest" "What is?"])
    ∧ (compact_get_response compactPH mockPredictor "What is?" "What is?"
        ["This\n\nis\n\na\n\nbar", "This\n\nis\n\na\n\ntest"]).map
          (fun r => r.2.length) = .ok 1 := by
  exact ⟨rfl, rfl⟩

/-- C4: in Tree-Summarize mode with `num_children = 2` over exactly four
chunks, one recursive level happens: two group-summary QA calls at level one,
whose summaries become the next level's chunks, then one final QA call at
level two — exactly three predictor calls, and the single remaining summary
is the final answer. -/
theorem tree_summarize_scenario_c (pred : Predictor) (query_str sep a b c d : String) :
    tree_summarize_get_response pred query_str sep 2 [a, b, c, d] =
      (pred.qa (joinSep sep
          [pred.qa (joinSep sep [a, b]) query_str,
           pred.qa (joinSep sep [c, d]) query_str]) query_str,
       [.qa (joinSep sep [a, b]) query_str,
        .qa (joinSep sep [c, d]) query_str,
        .qa (joinSep sep
          [pred.qa (joinSep sep [a, b]) query_str,
           pred.qa (joinSep sep [c, d]) query_str]) query_str])
    ∧ (tree_summarize_get_response pred query_str sep 2 [a, b, c, d]).2.length = 3 := by
  exact ⟨rfl, rfl⟩

/-- C6 fails as stated for Compact: a single input chunk of nine
separator-delimited units does not fit the packed window of eight tokens, so
the repacked sequence has two chunks and the second one goes through the
refine template — a one-chunk input on which Compact does invoke refine. -/
theorem compact_single_chunk_refines_counterexample :
    compact_get_response compactPH mockPredictor "What is?" "What is?"
      ["This\n\nis\n\na\n\nbar\n\nThis\n\nis\n\na\n\ntest\n\nfoo"] =
      .ok ("What is?:This\n\nis\n\na\n\nbar\n\nThis\n\nis\n\na\n\ntest:foo",
        [.qa "This\n\nis\n\na\n\nbar\n\nThis\n\nis\n\na\n\ntest" "What is?",
         .refine "What is?" "What is?:This\n\nis\n\na\n\nbar\n\nThis\n\nis\n\na\n\ntest"
           "foo"])
    ∧ (compact_get_response compactPH mockPredictor "What is?" "What is?"
        ["This\n\nis\n\na\n\nbar\n\nThis\n\nis\n\na\n\ntest\n\nfoo"]).map
          (fun r => r.2.any PredictorCall.is_refine_call) = .ok true := by
  exact ⟨rfl, rfl⟩

/-- C6 (amended): for Default mode, an input of exactly one chunk invokes
only the QA template and an input of zero chunks invokes the QA template
exactly once with an empty `context_str`; for Compact mode the same holds
provided the single chunk survives repacking as one chunk (it fits the
computed window) — and a zero-chunk Compact input makes exactly one
empty-context QA call and returns an answer whenever the window computation
succeeds. -/
theorem boundary_template_dispatch (pred : Predictor) (ph : PromptHelper)
    (prompt_text query_str chunk packed : String)
    (hp : ph.compact_text_chunks prompt_text [chunk] = .ok [packed]) :
    (default_get_response pred query_str [chunk]).2 = [.qa chunk query_str]
    ∧ (default_get_response pred query_str []).2 = [.qa "" query_str]
    ∧ compact_get_response ph pred prompt_text query_str [chunk] =
        .ok (pred.qa packed query_str, [.qa packed query_str])
    ∧ ∀ cs, ({ ph with chunk_size_limit := none } :
          PromptHelper).get_chunk_size_given_prompt prompt_text 1 1 = .ok cs →
        compact_get_response ph pred prompt_text query_str [] =
          .ok (pred.qa "" query_str, [.qa "" query_str]) := by
  refine ⟨rfl, rfl, ?_, ?_⟩
  · simp only [compact_get_response, hp, Except.bind]
    rfl
  · intro cs hcs
    simp only [compact_get_response, PromptHelper.compact_text_chunks, hcs, Except.bind]
    rcases hsep : ph.separator.data with _ | ⟨c0, rest0⟩ <;>
      simp only [splitSep, joinSep, hsep, splitSepAux, packUnits, packUnitsAux] <;>
      rfl

/-- Closed instance of `boundary_template_dispatch`: the Compact
configuration of the tests with the one-unit chunk `hello`, which survives
repacking unchanged. -/
theorem boundary_template_dispatch_witness :
    (default_get_response mockPredictor "What is?" ["hello"]).2 =
        [.qa "hello" "What is?"]
    ∧ (default_get_response mockPredictor "What is?" []).2 = [.qa "" "What is?"]
    ∧ compact_get_response compactPH mockPredictor "What is?" "What is?" ["hello"] =
        .ok (mockPredictor.qa "hello" "What is?", [.qa "hello" "What is?"])
    ∧ ∀ cs, ({ compactPH with chunk_size_limit := none } :
          PromptHelper).get_chunk_size_given_prompt "What is?" 1 1 = .ok cs →
        compact_get_response compactPH mockPredictor "What is?" "What is?" [] =
          .ok (mockPredictor.qa "" "What is?", [.qa "" "What is?"]) :=
  boundary_template_dispatch mockPredictor compactPH "What is?" "What is?"
    "hello" "hello" (by rfl)

/-- C7 fails as stated: formatting the query `foo \x7bbar\x7d.` yields
exactly `foo \x7bbar\x7d.\n\n\x7b\x7b Education, education experience \x7d\x7d`
— the braces that get doubled are those of the format instructions, while the
query's own braces are emitted verbatim, not doubled: the output is not the
brace-doubled query followed by the instructions. -/
theorem lc_format_query_braces_counterexample :
    lc_format mockFormatInstructions "foo \x7bbar\x7d." =
      "foo \x7bbar\x7d.\n\n\x7b\x7b Education, education experience \x7d\x7d"
    ∧ lc_format mockFormatInstructions "foo \x7bbar\x7d." =
        "foo \x7bbar\x7d." ++ "\n\n" ++ escapeBraces mockFormatInstructions
    ∧ escapeBraces "foo \x7bbar\x7d." = "foo \x7b\x7bbar\x7d\x7d."
    ∧ lc_format mockFormatInstructions "foo \x7bbar\x7d." ≠
        escapeBraces "foo \x7bbar\x7d." ++ "\n\n" ++ escapeBraces mockFormatInstructions := by
  exact ⟨rfl, rfl, rfl, by decide⟩

/-- C7 (amended): on the instruction-format output path, for every query text
containing a literal `\x7b` or `\x7d`, the parser's format-instruction braces
are escaped by doubling to `\x7b\x7b` / `\x7d\x7d` in the formatted output,
with the query itself emitted verbatim ahead of them; in particular
formatting `foo \x7bbar\x7d.` with the mock parser yields exactly
`foo \x7bbar\x7d.\n\n\x7b\x7b Education, education experience \x7d\x7d`. -/
theorem lc_format_escapes_instructions (format_instructions query_str : String)
    (h : containsBrace query_str = true) :
    lc_format format_instructions query_str =
        query_str ++ "\n\n" ++ escapeBraces format_instructions
    ∧ lc_format mockFormatInstructions "foo \x7bbar\x7d." =
        "foo \x7bbar\x7d.\n\n\x7b\x7b Education, education experience \x7d\x7d" := by
  refine ⟨?_, rfl⟩
  simp [lc_format, h]

/-- Closed instance of `lc_format_escapes_instructions` at the test's query. -/
theorem lc_format_escapes_instructions_witness :
    lc_format mockFormatInstructions "foo \x7bbar\x7d." =
        "foo \x7bbar\x7d." ++ "\n\n" ++ escapeBraces mockFormatInstructions
    ∧ lc_format mockFormatInstructions "foo \x7bbar\x7d." =
        "foo \x7bbar\x7d.\n\n\x7b\x7b Education, education experience \x7d\x7d" :=
  lc_format_escapes_instructions mockFormatInstructions "foo \x7bbar\x7d." (by decide)

/-- C8: for every LLM output whose execution as Python over the dataframe
raises, `default_output_processor` does not propagate the exception but
returns the diagnostic string embedding the error message, and
`GPTNLPandasIndexQuery.query` returns a `Response` whose answer text is that
string — the query returns text rather than raising on output-processing
failure. -/
theorem pandas_error_degrades_to_text {Df : Type}
    (run_python : String → Df → Except String String)
    (predict : String → String) (df : Df) (query_str e : String)
    (h : run_python (predict query_str) df = .error e) :
    default_output_processor run_python (predict query_str) df =
        "There was an error running the output as Python code. Error message: " ++ e
    ∧ (pandas_query run_python predict df query_str).response =
        "There was an error running the output as Python code. Error message: " ++ e
    ∧ (pandas_query run_python predict df query_str).pandas_instruction_str =
        predict query_str := by
  refine ⟨?_, ?_, rfl⟩ <;> simp [default_output_processor, pandas_query, h]

/-- Closed instance of `pandas_error_degrades_to_text`: an execution engine
that raises `KeyError` on the predicted instructions. -/
theorem pandas_error_degrades_to_text_witness :
    default_output_processor
        (fun _ (_ : Unit) => (.error "KeyError: population" : Except String String))
        "df.population" () =
      "There was an error running the output as Python code. Error message: KeyError: population"
    ∧ (pandas_query
        (fun _ (_ : Unit) => (.error "KeyError: population" : Except String String))
        (fun _ => "df.population") () "What is the population?").response =
      "There was an error running the output as Python code. Error message: KeyError: population"
    ∧ (pandas_query
        (fun _ (_ : Unit) => (.error "KeyError: population" : Except String String))
        (fun _ => "df.population") () "What is the population?").pandas_instruction_str =
      "df.population" :=
  pandas_error_degrades_to_text
    (fun _ (_ : Unit) => (.error "KeyError: population" : Except String String))
    (fun _ => "df.population") () "What is the population?" "KeyError: population" rfl

/-- C9: `SimpleMongoReader.load_data` returns exactly one `Document` per
cursor item in cursor order whenever every fetched item has a `"text"` field,
raises `ValueError` whenever some fetched item lacks it, and the `max_docs`
value stored by the constructor is never applied — the result is the same for
every `max_docs` and is not truncated. -/
theorem mongo_load_data_spec (r : SimpleMongoReader) (cursor : List MongoDoc) :
    ((∀ d ∈ cursor, (d.getText?).isSome = true) →
      r.load_data cursor = .ok (cursor.map fun d => ⟨(d.getText?).getD ""⟩))
    ∧ ((∃ d ∈ cursor, d.getText? = none) →
      r.load_data cursor = .error "`text` field not found in Mongo document.")
    ∧ ∀ m, SimpleMongoReader.load_data ⟨m⟩ cursor = r.load_data cursor := by
  induction cursor with
  | nil =>
    refine ⟨fun _ => rfl, ?_, fun _ => rfl⟩
    rintro ⟨d, hd, -⟩
    cases hd
  | cons x xs ih =>
    obtain ⟨ih1, ih2, ih3⟩ := ih
    refine ⟨?_, ?_, ?_⟩
    · intro hall
      have hx := hall x (List.mem_cons_self x xs)
      rcases hget : x.getText? with - | t
      · rw [hget] at hx
        simp at hx
      · have hrest := ih1 fun d hd => hall d (List.mem_cons_of_mem x hd)
        simp [SimpleMongoReader.load_data, hget, hrest, Except.map]
    · rintro ⟨d, hd, hnone⟩
      rcases hget : x.getText? with - | t
      · simp [SimpleMongoReader.load_data, hget]
      · rcases List.mem_cons.1 hd with hdx | hdxs
        · rw [hdx, hget] at hnone
          cases hnone
        · have hrest := ih2 ⟨d, hdxs, hnone⟩
          simp [SimpleMongoReader.load_data, hget, hrest, Except.map]
    · intro m
      rcases hget : x.getText? with - | t <;>
        simp [SimpleMongoReader.load_data, hget, ih3 m]

/-- Closed instance of `mongo_load_data_spec`: a two-item cursor whose second
item has no `"text"` field makes `load_data` raise. -/
theorem mongo_load_data_spec_witness :
    SimpleMongoReader.load_data ⟨1000⟩
        [⟨[("text", "Hello world.")]⟩, ⟨[("author", "x")]⟩] =
      .error "`text` field not found in Mongo document." :=
  (mongo_load_data_spec ⟨1000⟩
      [⟨[("text", "Hello world.")]⟩, ⟨[("author", "x")]⟩]).2.1
    ⟨⟨[("author", "x")]⟩, by decide, by decide⟩

/-- Any `d` for which `num_chunks` chunks of `d + pad` tokens fit beside the
prompt and the reserved output is at most the uncapped computed chunk size. -/
theorem le_uncapped_chunk_size (max T out n pad d : Nat) (hn : 0 < n)
    (hd : T + out + n * (d + pad) ≤ max) :
    d ≤ (max - T - out) / n - pad := by
  have h1 : n * (d + pad) ≤ max - T - out := by
    set m := n * (d + pad) with hm
    omega
  have h2 : d + pad ≤ (max - T - out) / n :=
    (Nat.le_div_iff_mul_le hn).2 (by rw [Nat.mul_comm]; exact h1)
  omega

/-- A positive `c` at most the uncapped computed chunk size fits: the prompt,
the reserved output and `num_chunks` chunks of `c + pad` tokens stay within
the window. -/
theorem uncapped_chunk_size_fits (max T out n pad c : Nat) (hn : 0 < n)
    (hc : c ≤ (max - T - out) / n - pad) (hcpos : 0 < c) :
    T + out + n * (c + pad) ≤ max := by
  have hcq : c + pad ≤ (max - T - out) / n := by omega
  have h1 : n * (c + pad) ≤ n * ((max - T - out) / n) := Nat.mul_le_mul_left n hcq
  have h2 : n * ((max - T - out) / n) ≤ max - T - out := by
    rw [Nat.mul_comm]
    exact Nat.div_mul_le_self _ _
  have h3 : 0 < n * (c + pad) := Nat.mul_pos hn (by omega)
  set m1 := n * (c + pad) with hm1
  set m2 := n * ((max - T - out) / n) with hm2
  omega

/-- C1 fails as stated: with `max_input_size = 11`, `num_output = 0`, an
empty prompt, one chunk, `padding = 1` and no `chunk_size_limit`, the helper
returns 10 even though 11 also satisfies
`tokens(prompt) + num_output + num_chunks * 11 ≤ max_input_size` — the
returned size is not the maximum integer with that property and no cap is in
play (padding is what accounts for the difference). -/
theorem chunk_size_not_claim_max_counterexample :
    PromptHelper.get_chunk_size_given_prompt
        ⟨11, 0, none, mockTokenizer, "\n\n"⟩ "" 1 1 = .ok 10
    ∧ tokenCount mockTokenizer "" + 0 + 1 * 11 ≤ 11
    ∧ (10 : Nat) ≠ 11
    ∧ (⟨11, 0, none, mockTokenizer, "\n\n"⟩ : PromptHelper).chunk_size_limit = none := by
  exact ⟨rfl, by decide, by decide, rfl⟩

/-- C1 (amended): for every valid configuration with positive remaining
budget, `get_chunk_size_given_prompt` returns a chunk size `c` such that
`tokens(prompt) + num_output + num_chunks * (c + padding) ≤ max_input_size`,
and `c` is the maximum integer with that property unless `chunk_size_limit`
is smaller, in which case `c` equals `chunk_size_limit`; in particular, with
`max_input_size = 11`, `num_output = 0`, empty prompt, one chunk,
`padding = 1` and `chunk_size_limit = 4`, the result is exactly 4. -/
theorem chunk_size_fits_and_is_max (ph : PromptHelper) (prompt_text : String)
    (num_chunks padding c : Nat) (hn : 0 < num_chunks)
    (h : ph.get_chunk_size_given_prompt prompt_text num_chunks padding = .ok c) :
    (tokenCount ph.tokenizer prompt_text + ph.num_output
        + num_chunks * (c + padding) ≤ ph.max_input_size
      ∧ ((∀ d, tokenCount ph.tokenizer prompt_text + ph.num_output
            + num_chunks * (d + padding) ≤ ph.max_input_size → d ≤ c)
          ∨ ∃ l, ph.chunk_size_limit = some l ∧ c = l))
    ∧ PromptHelper.get_chunk_size_given_prompt
        ⟨11, 0, some 4, mockTokenizer, "\n\n"⟩ "" 1 1 = .ok 4 := by
  refine ⟨?_, by rfl⟩
  simp only [PromptHelper.get_chunk_size_given_prompt] at h
  rcases hl : ph.chunk_size_limit with - | l <;> rw [hl] at h
  · split at h
    · exact Except.noConfusion h
    · rename_i hne
      rw [Except.ok.injEq] at h
      subst h
      constructor
      · exact uncapped_chunk_size_fits _ _ _ _ _ _ hn (Nat.le_refl _)
          (Nat.pos_of_ne_zero hne)
      · exact Or.inl fun d hd => le_uncapped_chunk_size _ _ _ _ _ _ hn hd
  · split at h
    · exact Except.noConfusion h
    · rename_i hne
      rw [Except.ok.injEq] at h
      subst h
      have hcpos : 0 < min ((ph.max_input_size - tokenCount ph.tokenizer prompt_text
          - ph.num_output) / num_chunks - padding) l := Nat.pos_of_ne_zero hne
      constructor
      · exact uncapped_chunk_size_fits _ _ _ _ _ _ hn (Nat.min_le_left _ _) hcpos
      · rcases Nat.le_total l ((ph.max_input_size - tokenCount ph.tokenizer prompt_text
            - ph.num_output) / num_chunks - padding) with hcase | hcase
        · exact Or.inr ⟨l, rfl, min_eq_right hcase⟩
        · exact Or.inl fun d hd =>
            le_min (le_uncapped_chunk_size _ _ _ _ _ _ hn hd)
              (le_trans (le_uncapped_chunk_size _ _ _ _ _ _ hn hd) hcase)

/-- Closed instance of `chunk_size_fits_and_is_max` at the test's
configuration, where the cap of 4 binds. -/
theorem chunk_size_fits_and_is_max_witness :
    (tokenCount mockTokenizer "" + 0 + 1 * (4 + 1) ≤ 11
      ∧ ((∀ d, tokenCount mockTokenizer "" + 0 + 1 * (d + 1) ≤ 11 → d ≤ 4)
          ∨ ∃ l, (⟨11, 0, some 4, mockTokenizer, "\n\n"⟩ : PromptHelper).chunk_size_limit
              = some l ∧ 4 = l))
    ∧ PromptHelper.get_chunk_size_given_prompt
        ⟨11, 0, some 4, mockTokenizer, "\n\n"⟩ "" 1 1 = .ok 4 :=
  chunk_size_fits_and_is_max ⟨11, 0, some 4, mockTokenizer, "\n\n"⟩ "" 1 1 4
    (by decide) (by rfl)

/-- C5: whenever the reserved prompt plus output tokens exhaust the window,
`get_chunk_size_given_prompt` fails with an error rather than returning, and
a returned chunk size is never zero — the failure is surfaced to the caller
instead of being clamped. -/
theorem chunk_size_budget_error (ph : PromptHelper) (prompt_text : String)
    (num_chunks padding : Nat) :
    (ph.max_input_size ≤ tokenCount ph.tokenizer prompt_text + ph.num_output →
      ph.get_chunk_size_given_prompt prompt_text num_chunks padding =
        .error "Calculated chunk size is non-positive.")
    ∧ ∀ c, ph.get_chunk_size_given_prompt prompt_text num_chunks padding = .ok c →
        0 < c := by
  constructor
  · intro hge
    have hA : ph.max_input_size - tokenCount ph.tokenizer prompt_text
        - ph.num_output = 0 := by omega
    rcases hl : ph.chunk_size_limit with - | l <;>
      simp [PromptHelper.get_chunk_size_given_prompt, hA, hl, Nat.zero_div]
  · intro c hc
    simp only [PromptHelper.get_chunk_size_given_prompt] at hc
    split at hc
    · exact Except.noConfusion hc
    · rename_i hne
      rw [Except.ok.injEq] at hc
      subst hc
      exact Nat.pos_of_ne_zero hne

/-- Closed instance of `chunk_size_budget_error`: a window of 4 with 5
reserved output tokens errors out. -/
theorem chunk_size_budget_error_witness :
    PromptHelper.get_chunk_size_given_prompt ⟨4, 5, none, mockTokenizer, "\n\n"⟩ "" 1 0 =
      .error "Calculated chunk size is non-positive." :=
  (chunk_size_budget_error ⟨4, 5, none, mockTokenizer, "\n\n"⟩ "" 1 0).1 (by decide)

end LlamaIndex
